import Mathlib

/-!
Verification of the temporal bridge module (`src/conversions/time.rs`):
bidirectional conversions between the native `time` library's value types
(`Duration`, `Date`, `Time`, `PrimitiveDateTime`, `OffsetDateTime`,
`UtcOffset`, `Month`) and the host runtime's `datetime` object model
(`timedelta`, `date`, `time`, `datetime`, `tzinfo`).

Modelling conventions:
* A native `Duration` is its total length in nanoseconds (`Int`).  The
  `time` crate stores a duration as whole seconds (`i64`) plus a
  same-signed sub-second nanosecond part, so `whole_seconds` is truncating
  division of the total nanosecond count by 10^9, `whole_days` divides the
  whole-second count by 86400, and `whole_microseconds` truncates to 10^3.
  Truncating (round-toward-zero) division is `Int.tdiv`, exactly Rust's
  `/` on integers.
* Host objects are records of the fields the module reads through the
  host accessor API.  The host `timedelta` constructor with
  `normalize = true` is modelled after CPython's normalization: the three
  signed arguments are combined into a total microsecond count, floor
  decomposition produces `days / seconds / microseconds` in normal form
  (`0 ≤ seconds < 86400`, `0 ≤ microseconds < 10^6`), and construction
  fails (host `OverflowError`) unless `-999999999 ≤ days ≤ 999999999`.
* Fallible operations return `Except PyErrKind α`; `PyErrKind`
  distinguishes the overflow raised inside the host delta constructor
  (`hostOverflow`) from an overflow raised by this module's own checked
  integer narrowing (`conversionOverflow`), plus the host `TypeError` and
  `ValueError` cases carrying their message.
* Rust's `i64 as i32` narrowing is two's-complement wrapping, modelled by
  reduction modulo 2^32 into `[-2^31, 2^31)`.
* The non-fatal leap-second warning is modelled as an explicit trace: an
  export returns the list of warning deliveries it performed, and a
  failed delivery is recorded as `unraisable` instead of becoming an
  error.
-/

namespace PyO3Time

/-- Failure kinds observable by a caller of the conversion module. -/
inductive PyErrKind where
  /-- `OverflowError` raised inside the host runtime's delta constructor. -/
  | hostOverflow
  /-- Overflow raised by this module's own fallible integer narrowing
  (`try_into()?`). -/
  | conversionOverflow
  /-- Host `TypeError` with its message. -/
  | typeError (msg : String)
  /-- Host `ValueError` with its message. -/
  | valueError (msg : String)
  deriving Repr, DecidableEq

/-- Host delta object (`datetime.timedelta`) in its normalized form. -/
structure PyDelta where
  days : Int
  seconds : Int
  microseconds : Int
  deriving Repr, DecidableEq

/-- Rust's fallible `i64 → i32` conversion `try_into()`. -/
def tryIntoI32 (x : Int) : Option Int :=
  if -2147483648 ≤ x ∧ x ≤ 2147483647 then some x else none

/-- `time::Duration::whole_seconds` on the total-nanosecond view:
truncating division by 10^9. -/
def whole_seconds (ns : Int) : Int := ns.tdiv 1000000000

/-- `time::Duration::whole_days`: the whole-second count divided
(truncating) by 86400. -/
def whole_days (ns : Int) : Int := (whole_seconds ns).tdiv 86400

/-- `time::Duration::whole_microseconds`: truncating division by 10^3. -/
def whole_microseconds (ns : Int) : Int := ns.tdiv 1000

/-- `time::Duration::days d` as nanoseconds. -/
def durDays (d : Int) : Int := d * 86400000000000

/-- `time::Duration::seconds s` as nanoseconds. -/
def durSeconds (s : Int) : Int := s * 1000000000

/-- `time::Duration::microseconds us` as nanoseconds. -/
def durMicroseconds (us : Int) : Int := us * 1000

/-- `let days = self.whole_days()` in `Duration::into_pyobject`. -/
def durationDays (ns : Int) : Int := whole_days ns

/-- `let secs = secs_dur.whole_seconds()` where
`secs_dur = self - Duration::days(days)`. -/
def durationSecs (ns : Int) : Int :=
  whole_seconds (ns - durDays (durationDays ns))

/-- `let micros = (secs_dur - Duration::seconds(secs_dur.whole_seconds())).whole_microseconds()`. -/
def durationMicros (ns : Int) : Int :=
  whole_microseconds (ns - durDays (durationDays ns) - durSeconds (durationSecs ns))

/-- CPython's `timedelta(days, seconds, microseconds)` constructor with
normalization: floor-decompose the total microsecond count and reject a
normalized day count outside `±999999999` (host `OverflowError`,
modelled as `none`). -/
def pyDelta_new (d s us : Int) : Option PyDelta :=
  let total := (d * 86400 + s) * 1000000 + us
  if -999999999 ≤ total / 86400000000 ∧ total / 86400000000 ≤ 999999999 then
    some ⟨total / 86400000000, total % 86400000000 / 1000000, total % 86400000000 % 1000000⟩
  else none

/-- `<Duration as IntoPyObject>::into_pyobject` (non-limited-API path):
split into whole days / remainder seconds / remainder microseconds,
narrow the day count with `try_into().unwrap_or(i32::MAX)` (a silent
clamp), narrow seconds and microseconds with `try_into()?`, and call the
host delta constructor with normalization enabled. -/
def duration_into_pyobject (ns : Int) : Except PyErrKind PyDelta :=
  match tryIntoI32 (durationSecs ns) with
  | none => .error .conversionOverflow
  | some s =>
    match tryIntoI32 (durationMicros ns) with
    | none => .error .conversionOverflow
    | some m =>
      match pyDelta_new ((tryIntoI32 (durationDays ns)).getD 2147483647) s m with
      | some d => .ok d
      | none => .error .hostOverflow

/-- `<Duration as FromPyObject>::extract_bound` on an already-downcast
host delta: `Duration::days(days) + Duration::seconds(seconds) +
Duration::microseconds(microseconds)`. -/
def duration_extract_bound (d : PyDelta) : Except PyErrKind Int :=
  .ok (durDays d.days + durSeconds d.seconds + durMicroseconds d.microseconds)

/-- Smallest host-representable delta, in microseconds
(`timedelta.min = -999999999 days`). -/
def hostMinUs : Int := -999999999 * 86400000000

/-- Largest host-representable delta, in microseconds
(`timedelta.max = 999999999 days, 86399 s, 999999 µs`). -/
def hostMaxUs : Int := 999999999 * 86400000000 + 86399 * 1000000 + 999999

/- ### Arithmetic facts about the duration decomposition -/

/-- Truncating division expressed through Euclidean division by sign. -/
theorem tdiv_char (a b : Int) (hb : 0 ≤ b) :
    a.tdiv b = if 0 ≤ a then a / b else -(-a / b) := by
  rcases le_or_lt 0 a with h | h
  · rw [if_pos h, Int.tdiv_eq_ediv h hb]
  · rw [if_neg (not_le.mpr h)]
    have h2 : (-a).tdiv b = -a / b := Int.tdiv_eq_ediv (by omega) hb
    have h3 : (-a).tdiv b = -a.tdiv b := Int.neg_tdiv a b
    omega

theorem durationDays_neg (ns : Int) : durationDays (-ns) = -durationDays ns := by
  unfold durationDays whole_days whole_seconds
  rw [Int.neg_tdiv, Int.neg_tdiv]

theorem durationSecs_neg (ns : Int) : durationSecs (-ns) = -durationSecs ns := by
  unfold durationSecs whole_seconds
  rw [durationDays_neg]
  have h : -ns - durDays (-durationDays ns) = -(ns - durDays (durationDays ns)) := by
    unfold durDays; ring
  rw [h, Int.neg_tdiv]

theorem durationMicros_neg (ns : Int) : durationMicros (-ns) = -durationMicros ns := by
  unfold durationMicros whole_microseconds
  rw [durationDays_neg, durationSecs_neg]
  have h : -ns - durDays (-durationDays ns) - durSeconds (-durationSecs ns)
      = -(ns - durDays (durationDays ns) - durSeconds (durationSecs ns)) := by
    unfold durDays durSeconds; ring
  rw [h, Int.neg_tdiv]

theorem whole_microseconds_neg (ns : Int) :
    whole_microseconds (-ns) = -whole_microseconds ns := by
  unfold whole_microseconds
  rw [Int.neg_tdiv]

theorem duration_components_nonneg (ns : Int) (h : 0 ≤ ns) :
    86400000000 * durationDays ns + 1000000 * durationSecs ns + durationMicros ns
      = whole_microseconds ns
    ∧ 0 ≤ durationSecs ns ∧ durationSecs ns ≤ 86399
    ∧ 0 ≤ durationMicros ns ∧ durationMicros ns ≤ 999999
    ∧ 0 ≤ durationDays ns := by
  have h1 : ns.tdiv 1000000000 = ns / 1000000000 :=
    Int.tdiv_eq_ediv h (by norm_num)
  have hd : durationDays ns = ns / 1000000000 / 86400 := by
    unfold durationDays whole_days whole_seconds
    rw [h1, Int.tdiv_eq_ediv (Int.ediv_nonneg h (by norm_num)) (by norm_num)]
  have h2 : 0 ≤ ns - durDays (durationDays ns) := by
    unfold durDays; rw [hd]; omega
  have hs0 : durationSecs ns = (ns - durDays (durationDays ns)) / 1000000000 := by
    unfold durationSecs whole_seconds
    rw [Int.tdiv_eq_ediv h2 (by norm_num)]
  have hs : durationSecs ns
      = (ns - ns / 1000000000 / 86400 * 86400000000000) / 1000000000 := by
    rw [hs0]; unfold durDays; rw [hd]
  have h3 : 0 ≤ ns - durDays (durationDays ns) - durSeconds (durationSecs ns) := by
    unfold durDays durSeconds; rw [hd, hs]; omega
  have hm0 : durationMicros ns
      = (ns - durDays (durationDays ns) - durSeconds (durationSecs ns)) / 1000 := by
    unfold durationMicros whole_microseconds
    rw [Int.tdiv_eq_ediv h3 (by norm_num)]
  have hm : durationMicros ns
      = (ns - ns / 1000000000 / 86400 * 86400000000000
          - (ns - ns / 1000000000 / 86400 * 86400000000000) / 1000000000 * 1000000000)
        / 1000 := by
    rw [hm0]; unfold durDays durSeconds; rw [hd, hs]
  have hw : whole_microseconds ns = ns / 1000 := by
    unfold whole_microseconds
    rw [Int.tdiv_eq_ediv h (by norm_num)]
  rw [hd, hs, hm, hw]
  omega

theorem duration_components (ns : Int) :
    86400000000 * durationDays ns + 1000000 * durationSecs ns + durationMicros ns
      = whole_microseconds ns
    ∧ -86399 ≤ durationSecs ns ∧ durationSecs ns ≤ 86399
    ∧ -999999 ≤ durationMicros ns ∧ durationMicros ns ≤ 999999
    ∧ (0 ≤ ns → 0 ≤ durationDays ns ∧ 0 ≤ durationSecs ns ∧ 0 ≤ durationMicros ns)
    ∧ (ns ≤ 0 → durationDays ns ≤ 0 ∧ durationSecs ns ≤ 0 ∧ durationMicros ns ≤ 0) := by
  rcases lt_trichotomy ns 0 with h | h | h
  · have hneg := duration_components_nonneg (-ns) (by omega)
    rw [durationDays_neg, durationSecs_neg, durationMicros_neg, whole_microseconds_neg] at hneg
    omega
  · subst h; decide
  · have := duration_components_nonneg ns (by omega)
    omega

theorem duration_into_pyobject_run (ns : Int) :
    duration_into_pyobject ns =
      match pyDelta_new ((tryIntoI32 (durationDays ns)).getD 2147483647)
          (durationSecs ns) (durationMicros ns) with
      | some d => .ok d
      | none => .error .hostOverflow := by
  have h := duration_components ns
  have hs : tryIntoI32 (durationSecs ns) = some (durationSecs ns) := by
    unfold tryIntoI32
    rw [if_pos (by omega : -2147483648 ≤ durationSecs ns ∧ durationSecs ns ≤ 2147483647)]
  have hm : tryIntoI32 (durationMicros ns) = some (durationMicros ns) := by
    unfold tryIntoI32
    rw [if_pos (by omega : -2147483648 ≤ durationMicros ns ∧ durationMicros ns ≤ 2147483647)]
  unfold duration_into_pyobject
  rw [hs, hm]

/-- C1: exporting a native duration whose whole-day count lies outside the
host's representable day range fails with the host delta constructor's
generic overflow (`hostOverflow`), never with this module's own typed
narrowing error; and a duration whose whole-day count is exactly
`+999999999` or `-999999999` with an in-range remainder (its
microsecond-truncated value lies within the host delta bounds) exports
successfully. -/
theorem c1_duration_export_bounds (ns : Int) :
    ((whole_days ns < -999999999 ∨ 999999999 < whole_days ns) →
      duration_into_pyobject ns = .error .hostOverflow)
    ∧ ((whole_days ns = 999999999 ∨ whole_days ns = -999999999) →
      hostMinUs ≤ whole_microseconds ns → whole_microseconds ns ≤ hostMaxUs →
      ∃ d, duration_into_pyobject ns = .ok d) := by
  have h := duration_components ns
  have hdays : whole_days ns = durationDays ns := rfl
  rw [duration_into_pyobject_run ns]
  constructor
  · intro hout
    rw [hdays] at hout
    by_cases hft : -2147483648 ≤ durationDays ns ∧ durationDays ns ≤ 2147483647
    · have hdd : (tryIntoI32 (durationDays ns)).getD 2147483647 = durationDays ns := by
        unfold tryIntoI32; rw [if_pos hft]; rfl
      rw [hdd]
      simp only [pyDelta_new]
      rw [if_neg (by omega :
        ¬(-999999999 ≤ ((durationDays ns * 86400 + durationSecs ns) * 1000000
              + durationMicros ns) / 86400000000
          ∧ ((durationDays ns * 86400 + durationSecs ns) * 1000000
              + durationMicros ns) / 86400000000 ≤ 999999999))]
    · have hdd : (tryIntoI32 (durationDays ns)).getD 2147483647 = 2147483647 := by
        unfold tryIntoI32; rw [if_neg hft]; rfl
      rw [hdd]
      simp only [pyDelta_new]
      rw [if_neg (by omega :
        ¬(-999999999 ≤ ((2147483647 * 86400 + durationSecs ns) * 1000000
              + durationMicros ns) / 86400000000
          ∧ ((2147483647 * 86400 + durationSecs ns) * 1000000
              + durationMicros ns) / 86400000000 ≤ 999999999))]
  · intro hedge hlo hhi
    rw [hdays] at hedge
    simp only [hostMinUs, hostMaxUs] at hlo hhi
    have hdd : (tryIntoI32 (durationDays ns)).getD 2147483647 = durationDays ns := by
      unfold tryIntoI32
      rw [if_pos (by omega : -2147483648 ≤ durationDays ns ∧ durationDays ns ≤ 2147483647)]
      rfl
    rw [hdd]
    simp only [pyDelta_new]
    rw [if_pos (by omega :
      -999999999 ≤ ((durationDays ns * 86400 + durationSecs ns) * 1000000
            + durationMicros ns) / 86400000000
        ∧ ((durationDays ns * 86400 + durationSecs ns) * 1000000
            + durationMicros ns) / 86400000000 ≤ 999999999)]
    exact ⟨_, rfl⟩

/-- Witness for C1: a duration of exactly 10^9 days fails to export with
the host overflow, and a duration of exactly +999999999 days exports
successfully. -/
theorem c1_duration_export_bounds_witness :
    duration_into_pyobject 86400000000000000000000 = .error .hostOverflow
    ∧ ∃ d, duration_into_pyobject 86399999913600000000000 = .ok d := by
  constructor
  · exact (c1_duration_export_bounds 86400000000000000000000).1 (by decide)
  · exact (c1_duration_export_bounds 86399999913600000000000).2
      (Or.inl (by decide)) (by decide) (by decide)

/-- C3 (amended): for every native duration with no sub-microsecond
remainder whose value lies within the host delta's representable range
(from `-999999999` days up to `999999999` days `86399` s `999999` µs),
exporting to a host delta and importing back yields the original
duration exactly.  The day-count condition of the original claim is not
sufficient: see `c3_counterexample`. -/
theorem c3_duration_roundtrip (ns : Int) (hdvd : ns % 1000 = 0)
    (hlo : hostMinUs ≤ whole_microseconds ns) (hhi : whole_microseconds ns ≤ hostMaxUs) :
    (duration_into_pyobject ns).bind duration_extract_bound = .ok ns := by
  have h := duration_components ns
  have hrec : whole_microseconds ns * 1000 = ns := by
    unfold whole_microseconds
    exact Int.tdiv_mul_cancel (Int.dvd_of_emod_eq_zero hdvd)
  simp only [hostMinUs, hostMaxUs] at hlo hhi
  rw [duration_into_pyobject_run ns]
  have hdd : (tryIntoI32 (durationDays ns)).getD 2147483647 = durationDays ns := by
    unfold tryIntoI32
    rw [if_pos (by omega : -2147483648 ≤ durationDays ns ∧ durationDays ns ≤ 2147483647)]
    rfl
  rw [hdd]
  simp only [pyDelta_new]
  rw [if_pos (by omega :
    -999999999 ≤ ((durationDays ns * 86400 + durationSecs ns) * 1000000
          + durationMicros ns) / 86400000000
      ∧ ((durationDays ns * 86400 + durationSecs ns) * 1000000
          + durationMicros ns) / 86400000000 ≤ 999999999)]
  simp only [Except.bind, duration_extract_bound, durDays, durSeconds, durMicroseconds]
  congr 1
  omega

/-- Witness for C3: one whole positive day round-trips exactly. -/
theorem c3_duration_roundtrip_witness :
    (duration_into_pyobject 86400000000000).bind duration_extract_bound
      = .ok 86400000000000 :=
  c3_duration_roundtrip 86400000000000 (by decide) (by decide) (by decide)

/-- Counterexample to C3 as stated: the duration `-999999999` days minus
1 µs has whole-day count exactly `-999999999` (truncation toward zero)
and no sub-microsecond remainder, yet export fails with the host
overflow, so export-then-import does not yield the original value. -/
theorem c3_counterexample :
    whole_days (-86399999913600000001000) = -999999999
    ∧ (-86399999913600000001000 : Int) % 1000 = 0
    ∧ (duration_into_pyobject (-86399999913600000001000)).bind duration_extract_bound
        = .error .hostOverflow := by
  refine ⟨by decide, by decide, ?_⟩
  rfl

/- ### Calendar dates -/

/-- Proleptic Gregorian leap-year rule, shared by the native `time`
library and the host calendar
(`year % 4 == 0 && (year % 100 != 0 || year % 400 == 0)`). -/
def isLeapYear (y : Int) : Bool :=
  y % 4 == 0 && (y % 100 != 0 || y % 400 == 0)

/-- Length of month `m` (1-based) of year `y` in the proleptic Gregorian
calendar. -/
def daysInMonth (y : Int) (m : Nat) : Nat :=
  if m = 2 then (if isLeapYear y then 29 else 28)
  else if m = 4 ∨ m = 6 ∨ m = 9 ∨ m = 11 then 30
  else 31

/-- Native `time::Date` viewed through its field accessors
(`year`, `month as u8` 1-based, `day`). -/
structure NDate where
  year : Int
  month : Nat
  day : Nat
  deriving Repr, DecidableEq

/-- Validity invariant of a native `time::Date` value (default year
range of the `time` crate: `-9999 ..= 9999`). -/
def timeDateValid (y : Int) (m d : Nat) : Prop :=
  -9999 ≤ y ∧ y ≤ 9999 ∧ 1 ≤ m ∧ m ≤ 12 ∧ 1 ≤ d ∧ d ≤ daysInMonth y m

instance (y : Int) (m d : Nat) : Decidable (timeDateValid y m d) := by
  unfold timeDateValid; infer_instance

/-- Host date object (`datetime.date`) field view. -/
structure PyDate where
  year : Int
  month : Nat
  day : Nat
  deriving Repr, DecidableEq

/-- `DateArgs` produced by `From<&Date> for DateArgs`:
`(value.year(), value.month() as u8, value.day())`. -/
structure DateArgs where
  year : Int
  month : Nat
  day : Nat
  deriving Repr, DecidableEq

/-- `impl From<&Date> for DateArgs`. -/
def dateArgs_from (value : NDate) : DateArgs :=
  ⟨value.year, value.month, value.day⟩

/-- CPython's `datetime.date(year, month, day)` constructor: validates
`1 ≤ year ≤ 9999`, `1 ≤ month ≤ 12` and calendar validity of the day,
raising `ValueError` (modelled as `none`) otherwise. -/
def pyDate_new (y : Int) (m d : Nat) : Option PyDate :=
  if 1 ≤ y ∧ y ≤ 9999 ∧ 1 ≤ m ∧ m ≤ 12 ∧ 1 ≤ d ∧ d ≤ daysInMonth y m
  then some ⟨y, m, d⟩ else none

/-- `<Date as IntoPyObject>::into_pyobject`: decompose through
`DateArgs` and call the host date constructor. -/
def date_into_pyobject (d : NDate) : Except PyErrKind PyDate :=
  match pyDate_new (dateArgs_from d).year (dateArgs_from d).month (dateArgs_from d).day with
  | some p => .ok p
  | none => .error (.valueError "out-of-range date")

/-- `TryFrom<u8> for time::Month`: succeeds exactly on `1 ..= 12`,
yielding the month with that 1-based number. -/
def monthTryFromU8 (m : Nat) : Option Nat :=
  if 1 ≤ m ∧ m ≤ 12 then some m else none

/-- `time::Date::from_calendar_date(year, month, day)`: re-validates the
year range and the day against the calendar. -/
def date_from_calendar_date (y : Int) (m d : Nat) : Option NDate :=
  if -9999 ≤ y ∧ y ≤ 9999 ∧ 1 ≤ d ∧ d ≤ daysInMonth y m
  then some ⟨y, m, d⟩ else none

/-- `py_date_to_naive_date`: read the host's `(year, month, day)`,
convert the month through `TryFrom<u8>` (else "invalid month"), then
rebuild through `Date::from_calendar_date` (else "invalid or
out-of-range date"). -/
def py_date_to_naive_date (py_date : PyDate) : Except PyErrKind NDate :=
  match monthTryFromU8 py_date.month with
  | none => .error (.valueError "invalid month")
  | some m =>
    match date_from_calendar_date py_date.year m py_date.day with
    | some d => .ok d
    | none => .error (.valueError "invalid or out-of-range date")

/-- C4: every valid proleptic Gregorian calendar date with year in
`[1, 9999]` exports to a host date and imports back to the original
date exactly. -/
theorem c4_date_roundtrip (y : Int) (m d : Nat)
    (hy1 : 1 ≤ y) (hy2 : y ≤ 9999) (hm1 : 1 ≤ m) (hm2 : m ≤ 12)
    (hd1 : 1 ≤ d) (hd2 : d ≤ daysInMonth y m) :
    (date_into_pyobject ⟨y, m, d⟩).bind py_date_to_naive_date = .ok ⟨y, m, d⟩ := by
  unfold date_into_pyobject dateArgs_from pyDate_new
  rw [if_pos ⟨hy1, hy2, hm1, hm2, hd1, hd2⟩]
  show py_date_to_naive_date ⟨y, m, d⟩ = .ok ⟨y, m, d⟩
  unfold py_date_to_naive_date monthTryFromU8
  rw [if_pos ⟨hm1, hm2⟩]
  show (match date_from_calendar_date y m d with
        | some d0 => Except.ok d0
        | none => Except.error (PyErrKind.valueError "invalid or out-of-range date"))
      = Except.ok (⟨y, m, d⟩ : NDate)
  unfold date_from_calendar_date
  rw [if_pos ⟨by omega, hy2, hd1, hd2⟩]

/-- Witness for C4: the leap day 2012-02-29 and the upper bound
9999-12-31 both round-trip exactly. -/
theorem c4_date_roundtrip_witness :
    (date_into_pyobject ⟨2012, 2, 29⟩).bind py_date_to_naive_date = .ok ⟨2012, 2, 29⟩
    ∧ (date_into_pyobject ⟨9999, 12, 31⟩).bind py_date_to_naive_date = .ok ⟨9999, 12, 31⟩ :=
  ⟨c4_date_roundtrip 2012 2 29 (by decide) (by decide) (by decide) (by decide)
      (by decide) (by decide),
   c4_date_roundtrip 9999 12 31 (by decide) (by decide) (by decide) (by decide)
      (by decide) (by decide)⟩

/- ### Standalone Month import -/

/-- Modelled from the spec: the host-integer to unsigned-8-bit
extraction (`ob.extract::<u8>()`) used by the `Month` import lives in
the repository's numeric conversion layer, which is not part of this
module's source.  Per the host runtime's integer conversion contract it
succeeds exactly for integers in `[0, 255]` and otherwise fails with a
host overflow error (not this module's "invalid month" `ValueError`). -/
def extract_u8 (ob : Int) : Except PyErrKind Nat :=
  if 0 ≤ ob ∧ ob ≤ 255 then .ok ob.toNat else .error .conversionOverflow

/-- `<Month as FromPyObject>::extract_bound`: extract a `u8`, apply
`saturating_sub(1)` (Nat subtraction saturates at 0), and convert
through `TryFrom<u8> for Month`, mapping failure to "invalid month".
The result is the 1-based number of the produced `Month`. -/
def month_extract_bound (ob : Int) : Except PyErrKind Nat :=
  match extract_u8 ob with
  | .error e => .error e
  | .ok m =>
    match monthTryFromU8 (m - 1) with
    | some mo => .ok mo
    | none => .error (.valueError "invalid month")

/-- C9 (amended): the standalone `Month` import subtracts one from the
host's 1-based month number before validating it, so `2 ≤ m ≤ 13`
succeeds and yields the month whose 1-based number is `m - 1`
(`m = 2` gives January, `m = 13` gives December); `m = 0`, `m = 1` and
`14 ≤ m ≤ 255` fail with "invalid month"; integers outside the
unsigned-8-bit range fail the preliminary `u8` extraction with a host
overflow error instead of "invalid month". -/
theorem c9_month_off_by_one (m : Int) :
    (2 ≤ m → m ≤ 13 → month_extract_bound m = .ok (m.toNat - 1))
    ∧ ((m = 0 ∨ m = 1 ∨ (14 ≤ m ∧ m ≤ 255)) →
        month_extract_bound m = .error (.valueError "invalid month"))
    ∧ ((m < 0 ∨ 255 < m) → month_extract_bound m = .error .conversionOverflow) := by
  refine ⟨?_, ?_, ?_⟩
  · intro h2 h13
    unfold month_extract_bound extract_u8
    rw [if_pos ⟨by omega, by omega⟩]
    show (match monthTryFromU8 (m.toNat - 1) with
          | some mo => Except.ok mo
          | none => Except.error (PyErrKind.valueError "invalid month"))
        = Except.ok (m.toNat - 1)
    unfold monthTryFromU8
    rw [if_pos ⟨by omega, by omega⟩]
  · intro hcase
    unfold month_extract_bound extract_u8
    rw [if_pos ⟨by omega, by omega⟩]
    show (match monthTryFromU8 (m.toNat - 1) with
          | some mo => Except.ok mo
          | none => Except.error (PyErrKind.valueError "invalid month"))
        = Except.error (PyErrKind.valueError "invalid month")
    unfold monthTryFromU8
    rw [if_neg (by omega : ¬(1 ≤ m.toNat - 1 ∧ m.toNat - 1 ≤ 12))]
  · intro hcase
    unfold month_extract_bound extract_u8
    rw [if_neg (by omega : ¬(0 ≤ m ∧ m ≤ 255))]

/-- Witness for C9: `m = 2` imports as January (1-based number 1),
`m = 13` as December (12), and `m = 1` fails with "invalid month". -/
theorem c9_month_off_by_one_witness :
    month_extract_bound 2 = .ok 1
    ∧ month_extract_bound 13 = .ok 12
    ∧ month_extract_bound 1 = .error (.valueError "invalid month") :=
  ⟨(c9_month_off_by_one 2).1 (by decide) (by decide),
   (c9_month_off_by_one 13).1 (by decide) (by decide),
   (c9_month_off_by_one 1).2.1 (Or.inr (Or.inl rfl))⟩

/-- Counterexample to C9 as stated: the host integer 256 is at least 14,
but its import fails with the `u8` extraction's overflow error, not with
"invalid month". -/
theorem c9_counterexample :
    month_extract_bound 256 = .error .conversionOverflow
    ∧ PyErrKind.conversionOverflow ≠ PyErrKind.valueError "invalid month" :=
  ⟨rfl, by decide⟩

/- ### Time-of-day and the leap-second policy -/

/-- Native `time::Time` viewed through its field accessors
(`hour`, `minute`, `second`, `nanosecond`). -/
structure NTime where
  hour : Nat
  minute : Nat
  second : Nat
  nanosecond : Nat
  deriving Repr, DecidableEq

/-- `TimeArgs` as produced by `From<&Time> for TimeArgs`. -/
structure TimeArgs where
  hour : Nat
  min : Nat
  sec : Nat
  micro : Nat
  truncated_leap_second : Bool
  deriving Repr, DecidableEq

/-- `impl From<&Time> for TimeArgs`: `checked_sub(1_000_000_000)` on the
nanosecond count flags a stored leap second; the microsecond field is
the (possibly reduced) nanosecond count divided by 1000. -/
def timeArgs_from (value : NTime) : TimeArgs :=
  let ns := value.nanosecond
  let checkedSub : Option Nat :=
    if 1000000000 ≤ ns then some (ns - 1000000000) else none
  { hour := value.hour
    min := value.minute
    sec := value.second
    micro := checkedSub.getD ns / 1000
    truncated_leap_second := checkedSub.isSome }

/-- Host time object (`datetime.time`) field view (any offset attribute
is ignored by the time conversions). -/
structure PyTimeFields where
  hour : Nat
  minute : Nat
  second : Nat
  microsecond : Nat
  deriving Repr, DecidableEq

/-- CPython's `datetime.time(hour, minute, second, microsecond)`
constructor: `ValueError` (modelled as `none`) outside field ranges. -/
def pyTime_new (h m s us : Nat) : Option PyTimeFields :=
  if h ≤ 23 ∧ m ≤ 59 ∧ s ≤ 59 ∧ us ≤ 999999 then some ⟨h, m, s, us⟩ else none

/-- Outcome of one attempted warning delivery. -/
inductive WarnOutcome where
  /-- The warning reached the host's warning channel. -/
  | delivered
  /-- Delivery failed; the failure was written as unraisable and
  swallowed. -/
  | unraisable
  deriving Repr, DecidableEq

/-- `warn_truncated_leap_second`: emit the non-fatal leap-second
warning; if `PyErr::warn` fails (no warning sink), the error is written
unraisable and swallowed — the function never propagates a failure. -/
def warn_truncated_leap_second (warnChannelOk : Bool) : WarnOutcome :=
  if warnChannelOk then .delivered else .unraisable

/-- `<Time as IntoPyObject>::into_pyobject`: build `TimeArgs`, construct
the host time, then (only if the leap second was truncated) emit exactly
one warning.  The returned trace lists the warning deliveries performed. -/
def time_into_pyobject (t : NTime) (warnChannelOk : Bool) :
    Except PyErrKind (PyTimeFields × List WarnOutcome) :=
  let args := timeArgs_from t
  match pyTime_new args.hour args.min args.sec args.micro with
  | none => .error (.valueError "invalid time")
  | some time =>
    .ok (time,
      if args.truncated_leap_second then [warn_truncated_leap_second warnChannelOk] else [])

/-- `py_time_to_naive_time`: rebuild through
`Time::from_hms_micro(hour, minute, second, microsecond)`, mapping a
rejection to "invalid or out-of-range time". -/
def py_time_to_naive_time (p : PyTimeFields) : Except PyErrKind NTime :=
  if p.hour ≤ 23 ∧ p.minute ≤ 59 ∧ p.second ≤ 59 ∧ p.microsecond ≤ 999999 then
    .ok ⟨p.hour, p.minute, p.second, p.microsecond * 1000⟩
  else .error (.valueError "invalid or out-of-range time")

/-- C5: when the stored nanosecond count is at least 10^9 (a stored 61st
second) exactly one second's worth of nanoseconds is subtracted before
the microsecond field is computed and `truncated_leap_second` is set;
below 10^9 the microsecond field is the nanosecond count divided by
1000 with the flag clear; and when the flag is set the export succeeds
and performs exactly one warning delivery after constructing the host
time, a failed delivery being recorded unraisable instead of becoming
an error. -/
theorem c5_leap_second_truncation (t : NTime) (wOk : Bool) :
    (1000000000 ≤ t.nanosecond →
      (timeArgs_from t).micro = (t.nanosecond - 1000000000) / 1000
      ∧ (timeArgs_from t).truncated_leap_second = true)
    ∧ (t.nanosecond < 1000000000 →
      (timeArgs_from t).micro = t.nanosecond / 1000
      ∧ (timeArgs_from t).truncated_leap_second = false)
    ∧ (t.hour ≤ 23 → t.minute ≤ 59 → t.second ≤ 59 →
      1000000000 ≤ t.nanosecond → t.nanosecond ≤ 1999999999 →
      time_into_pyobject t wOk
        = .ok (⟨t.hour, t.minute, t.second, (t.nanosecond - 1000000000) / 1000⟩,
               [warn_truncated_leap_second wOk])
      ∧ warn_truncated_leap_second false = .unraisable) := by
  refine ⟨?_, ?_, ?_⟩
  · intro hge
    simp only [timeArgs_from]
    rw [if_pos hge]
    exact ⟨by rw [Option.getD_some], rfl⟩
  · intro hlt
    simp only [timeArgs_from]
    rw [if_neg (by omega)]
    exact ⟨by rw [Option.getD_none], rfl⟩
  · intro hh hm hs hge hle
    have hargs : timeArgs_from t
        = ⟨t.hour, t.minute, t.second, (t.nanosecond - 1000000000) / 1000, true⟩ := by
      simp only [timeArgs_from]
      rw [if_pos hge, Option.getD_some]
      rfl
    refine ⟨?_, rfl⟩
    unfold time_into_pyobject
    rw [hargs]
    show (match pyTime_new t.hour t.minute t.second ((t.nanosecond - 1000000000) / 1000) with
          | none => Except.error (PyErrKind.valueError "invalid time")
          | some time => Except.ok (time, [warn_truncated_leap_second wOk]))
        = Except.ok (⟨t.hour, t.minute, t.second, (t.nanosecond - 1000000000) / 1000⟩,
                     [warn_truncated_leap_second wOk])
    unfold pyTime_new
    rw [if_pos ⟨hh, hm, hs, by omega⟩]

/-- Witness for C5: the leap-second time 23:59:59 + 1999999999 ns
exports with one truncated-leap-second warning even when the warning
channel fails, and the failed delivery is recorded as unraisable. -/
theorem c5_leap_second_truncation_witness :
    (timeArgs_from ⟨23, 59, 59, 1999999999⟩).micro = 999999
    ∧ (timeArgs_from ⟨23, 59, 59, 1999999999⟩).truncated_leap_second = true
    ∧ time_into_pyobject ⟨23, 59, 59, 1999999999⟩ false
        = .ok (⟨23, 59, 59, 999999⟩, [WarnOutcome.unraisable]) := by
  have h := c5_leap_second_truncation ⟨23, 59, 59, 1999999999⟩ false
  refine ⟨?_, (h.1 (by decide)).2, ?_⟩
  · rw [(h.1 (by decide)).1]
    decide
  · have h3 := (h.2.2 (by decide) (by decide) (by decide) (by decide) (by decide)).1
    rw [h3]
    rfl

/- ### Fixed UTC offsets and host tzinfo objects -/

/-- Host tzinfo object as probed by this module: its printable
representation (used in error messages) and the result of calling its
`utcoffset` method with a null reference instant — `none` models a host
`None` answer (a calendar-dependent zone), `some delta` a fixed-offset
answer. -/
structure PyTzInfo where
  reprStr : String
  utcoffsetAtNone : Option PyDelta
  deriving Repr, DecidableEq

/-- Total nanoseconds of the `Duration` extracted from a host delta
(the body of `<Duration as FromPyObject>::extract_bound`). -/
def timedelta_total_ns (d : PyDelta) : Int :=
  durDays d.days + durSeconds d.seconds + durMicroseconds d.microseconds

/-- Rust's wrapping `i64 as i32` narrowing: reduction modulo 2^32 into
`[-2^31, 2^31)`. -/
def wrapI32 (x : Int) : Int := (x + 2147483648) % 4294967296 - 2147483648

/-- `time::UtcOffset::from_whole_seconds`: accepts exactly the whole
second offsets of magnitude at most 86399 (less than one day). -/
def utcOffset_from_whole_seconds (s : Int) : Option Int :=
  if -86399 ≤ s ∧ s ≤ 86399 then some s else none

/-- `<UtcOffset as FromPyObject>::extract_bound`: call
`utcoffset(None)`; a `None` answer fails with "... is not a fixed offset
timezone" naming the object; otherwise extract the delta as a
`Duration`, narrow its `whole_seconds` with the wrapping `as i32` cast,
and validate through `UtcOffset::from_whole_seconds`, mapping rejection
to "fixed offset out of bounds". -/
def utcOffset_extract_bound (ob : PyTzInfo) : Except PyErrKind Int :=
  match ob.utcoffsetAtNone with
  | none => .error (.typeError (ob.reprStr ++ " is not a fixed offset timezone"))
  | some py_timedelta =>
    let total_seconds := wrapI32 (whole_seconds (timedelta_total_ns py_timedelta))
    match utcOffset_from_whole_seconds total_seconds with
    | some off => .ok off
    | none => .error (.valueError "fixed offset out of bounds")

/- ### Combined date-times -/

/-- Native `time::PrimitiveDateTime` (naive date-time). -/
structure NPrimitiveDateTime where
  date : NDate
  time : NTime
  deriving Repr, DecidableEq

/-- Native `time::OffsetDateTime`: naive date-time plus a whole-second
UTC offset. -/
structure NOffsetDateTime where
  dateTime : NPrimitiveDateTime
  offset : Int
  deriving Repr, DecidableEq

/-- Host date-time object (`datetime.datetime`) field view. -/
structure PyDateTimeObj where
  year : Int
  month : Nat
  day : Nat
  hour : Nat
  minute : Nat
  second : Nat
  microsecond : Nat
  tzinfo : Option PyTzInfo
  deriving Repr, DecidableEq

/-- Date-field view of a host date-time object (the `PyDateAccess`
interface). -/
def PyDateTimeObj.dateFields (dt : PyDateTimeObj) : PyDate :=
  ⟨dt.year, dt.month, dt.day⟩

/-- Time-field view of a host date-time object (the `PyTimeAccess`
interface). -/
def PyDateTimeObj.timeFields (dt : PyDateTimeObj) : PyTimeFields :=
  ⟨dt.hour, dt.minute, dt.second, dt.microsecond⟩

/-- CPython's `datetime.datetime(...)` constructor: `ValueError`
(modelled as `none`) outside field ranges; the tzinfo argument is
attached unchanged. -/
def pyDateTime_new (y : Int) (mo d h mi s us : Nat) (tz : Option PyTzInfo) :
    Option PyDateTimeObj :=
  if 1 ≤ y ∧ y ≤ 9999 ∧ 1 ≤ mo ∧ mo ≤ 12 ∧ 1 ≤ d ∧ d ≤ daysInMonth y mo
      ∧ h ≤ 23 ∧ mi ≤ 59 ∧ s ≤ 59 ∧ us ≤ 999999
  then some ⟨y, mo, d, h, mi, s, us, tz⟩ else none

/-- `primitive_datetime_to_py_datetime`: decompose through `DateArgs`
and `TimeArgs`, construct the host date-time with the given tzinfo
(`.expect` — a constructor failure panics, modelled as `none`), then
emit the leap-second warning if flagged. -/
def primitive_datetime_to_py_datetime (pdt : NPrimitiveDateTime)
    (tzinfo : Option PyTzInfo) (warnChannelOk : Bool) :
    Option (PyDateTimeObj × List WarnOutcome) :=
  match pyDateTime_new (dateArgs_from pdt.date).year (dateArgs_from pdt.date).month
      (dateArgs_from pdt.date).day (timeArgs_from pdt.time).hour
      (timeArgs_from pdt.time).min (timeArgs_from pdt.time).sec
      (timeArgs_from pdt.time).micro tzinfo with
  | none => none
  | some datetime =>
    some (datetime,
      if (timeArgs_from pdt.time).truncated_leap_second
      then [warn_truncated_leap_second warnChannelOk] else [])

/-- `<OffsetDateTime as ToPyObject>::to_object`: forwards the naive
date-time part `PrimitiveDateTime::new(self.date(), self.time())` to
`primitive_datetime_to_py_datetime` with tzinfo `None`. -/
def offsetDateTime_to_object (odt : NOffsetDateTime) (warnChannelOk : Bool) :
    Option (PyDateTimeObj × List WarnOutcome) :=
  primitive_datetime_to_py_datetime odt.dateTime none warnChannelOk

/-- `<PrimitiveDateTime as FromPyObject>::extract_bound`: reject a host
date-time carrying a tzinfo, otherwise rebuild date and time from the
host fields. -/
def primitiveDateTime_extract_bound (dt : PyDateTimeObj) :
    Except PyErrKind NPrimitiveDateTime :=
  if (dt.tzinfo).isSome then .error (.typeError "expected a datetime without tzinfo")
  else
    match py_date_to_naive_date dt.dateFields with
    | .error e => .error e
    | .ok d =>
      match py_time_to_naive_time dt.timeFields with
      | .error e => .error e
      | .ok t => .ok ⟨d, t⟩

/-- `<OffsetDateTime as FromPyObject>::extract_bound`: require a
non-`None` tzinfo, convert it through the fixed-offset import path
(its failure fails the whole import), rebuild the naive date-time, and
attach the offset (`assume_offset`). -/
def offsetDateTime_extract_bound (dt : PyDateTimeObj) :
    Except PyErrKind NOffsetDateTime :=
  match dt.tzinfo with
  | none => .error (.typeError "expected a datetime with non-None tzinfo")
  | some tzinfo =>
    match utcOffset_extract_bound tzinfo with
    | .error e => .error e
    | .ok tz =>
      match py_date_to_naive_date dt.dateFields with
      | .error e => .error e
      | .ok d =>
        match py_time_to_naive_time dt.timeFields with
        | .error e => .error e
        | .ok t => .ok ⟨⟨d, t⟩, tz⟩

/-- C2 (failing evaluation): the deprecated offset-aware export
`<OffsetDateTime as ToPyObject>::to_object` succeeds on the date-time
2022-01-01 00:00:00 at offset +3600 s but produces a host date-time
whose tzinfo is null — the +3600 s UTC offset is silently discarded,
which is neither of the two documented losses. -/
theorem c2_to_object_drops_offset :
    offsetDateTime_to_object ⟨⟨⟨2022, 1, 1⟩, ⟨0, 0, 0, 0⟩⟩, 3600⟩ true
      = some (⟨2022, 1, 1, 0, 0, 0, 0, none⟩, [])
    ∧ (⟨⟨⟨2022, 1, 1⟩, ⟨0, 0, 0, 0⟩⟩, 3600⟩ : NOffsetDateTime).offset = 3600 :=
  ⟨rfl, rfl⟩

/-- C6: importing a host date-time that carries a non-null tzinfo into
the naive native date-time type fails with the "expected a datetime
without tzinfo" condition, and a successful import implies the tzinfo
was null. -/
theorem c6_naive_import_rejects_tzinfo (dt : PyDateTimeObj) :
    (∀ tz, dt.tzinfo = some tz →
      primitiveDateTime_extract_bound dt
        = .error (.typeError "expected a datetime without tzinfo"))
    ∧ (∀ r, primitiveDateTime_extract_bound dt = .ok r → dt.tzinfo = none) := by
  constructor
  · intro tz htz
    simp [primitiveDateTime_extract_bound, htz]
  · intro r hr
    cases h : dt.tzinfo with
    | none => rfl
    | some tz =>
      rw [(by simp [primitiveDateTime_extract_bound, h] :
        primitiveDateTime_extract_bound dt
          = .error (.typeError "expected a datetime without tzinfo"))] at hr
      exact absurd hr (by simp)

/-- Witness for C6: a host date-time carrying a fixed-offset tzinfo is
rejected by the naive import. -/
theorem c6_naive_import_rejects_tzinfo_witness :
    primitiveDateTime_extract_bound ⟨2022, 1, 1, 1, 0, 0, 0, some ⟨"utc", some ⟨0, 0, 0⟩⟩⟩
      = .error (.typeError "expected a datetime without tzinfo") :=
  (c6_naive_import_rejects_tzinfo ⟨2022, 1, 1, 1, 0, 0, 0, some ⟨"utc", some ⟨0, 0, 0⟩⟩⟩).1
    ⟨"utc", some ⟨0, 0, 0⟩⟩ rfl

/-- C7: importing a host date-time with null tzinfo into the
offset-aware native type fails with the "expected a datetime with
non-None tzinfo" condition; a non-null tzinfo is converted through the
fixed-offset import path, whose failure fails the whole import with the
same error, and whose success supplies the offset attached to the
result. -/
theorem c7_aware_import_requires_tzinfo (dt : PyDateTimeObj) :
    (dt.tzinfo = none →
      offsetDateTime_extract_bound dt
        = .error (.typeError "expected a datetime with non-None tzinfo"))
    ∧ (∀ tz e, dt.tzinfo = some tz → utcOffset_extract_bound tz = .error e →
      offsetDateTime_extract_bound dt = .error e)
    ∧ (∀ tz off r, dt.tzinfo = some tz → utcOffset_extract_bound tz = .ok off →
      offsetDateTime_extract_bound dt = .ok r → r.offset = off) := by
  refine ⟨?_, ?_, ?_⟩
  · intro h
    simp [offsetDateTime_extract_bound, h]
  · intro tz e htz he
    simp [offsetDateTime_extract_bound, htz, he]
  · intro tz off r htz hok hr
    simp only [offsetDateTime_extract_bound, htz, hok] at hr
    rcases hd : py_date_to_naive_date dt.dateFields with e | d
    · rw [hd] at hr
      exact absurd hr (by simp)
    · rw [hd] at hr
      rcases ht : py_time_to_naive_time dt.timeFields with e | t
      · rw [ht] at hr
        exact absurd hr (by simp)
      · rw [ht] at hr
        have : (⟨⟨d, t⟩, off⟩ : NOffsetDateTime) = r := by
          exact Except.ok.inj hr
        rw [← this]

/-- Witness for C7: a host date-time with null tzinfo is rejected by
the offset-aware import, and one carrying a non-fixed tzinfo (whose
offset query answers null) fails with that tzinfo conversion's error. -/
theorem c7_aware_import_requires_tzinfo_witness :
    offsetDateTime_extract_bound ⟨2022, 1, 1, 1, 0, 0, 0, none⟩
      = .error (.typeError "expected a datetime with non-None tzinfo")
    ∧ offsetDateTime_extract_bound ⟨2022, 1, 1, 1, 0, 0, 0, some ⟨"zi", none⟩⟩
      = .error (.typeError ("zi" ++ " is not a fixed offset timezone")) :=
  ⟨(c7_aware_import_requires_tzinfo ⟨2022, 1, 1, 1, 0, 0, 0, none⟩).1 rfl,
   (c7_aware_import_requires_tzinfo ⟨2022, 1, 1, 1, 0, 0, 0, some ⟨"zi", none⟩⟩).2.1
     ⟨"zi", none⟩ _ rfl rfl⟩

/-- C8 (amended): the fixed-offset import queries the host tzinfo's
offset at a null reference instant; a null answer fails with "... is
not a fixed offset timezone" naming the object, and a returned delta
whose whole-second count, after the wrapping 32-bit narrowing, lies
outside the representable whole-second range fails with "fixed offset
out of bounds" (sub-second parts of the delta are dropped by the
whole-second truncation).  Without the wrapping qualification the
out-of-range rejection is false: see `c8_counterexample`. -/
theorem c8_fixed_offset_import_guard (tz : PyTzInfo) :
    (tz.utcoffsetAtNone = none →
      utcOffset_extract_bound tz
        = .error (.typeError (tz.reprStr ++ " is not a fixed offset timezone")))
    ∧ (∀ delta, tz.utcoffsetAtNone = some delta →
      (wrapI32 (whole_seconds (timedelta_total_ns delta)) < -86399
        ∨ 86399 < wrapI32 (whole_seconds (timedelta_total_ns delta))) →
      utcOffset_extract_bound tz = .error (.valueError "fixed offset out of bounds")) := by
  constructor
  · intro h
    simp [utcOffset_extract_bound, h]
  · intro delta hq hout
    simp only [utcOffset_extract_bound, hq, utcOffset_from_whole_seconds]
    rw [if_neg (by omega)]

/-- Witness for C8: a calendar-dependent zone (null offset answer) is
rejected naming the object, and a one-day delta (86400 whole seconds,
unchanged by the narrowing) is rejected as out of bounds. -/
theorem c8_fixed_offset_import_guard_witness :
    utcOffset_extract_bound ⟨"zoneinfo", none⟩
      = .error (.typeError ("zoneinfo" ++ " is not a fixed offset timezone"))
    ∧ utcOffset_extract_bound ⟨"oneday", some ⟨1, 0, 0⟩⟩
      = .error (.valueError "fixed offset out of bounds") :=
  ⟨(c8_fixed_offset_import_guard ⟨"zoneinfo", none⟩).1 rfl,
   (c8_fixed_offset_import_guard ⟨"oneday", some ⟨1, 0, 0⟩⟩).2 ⟨1, 0, 0⟩ rfl
     (Or.inr (by decide))⟩

/-- Counterexample to C8 as stated: a host tzinfo whose offset query
returns the delta of 49710 days 23296 s — exactly 2^32 whole seconds,
far outside the representable whole-second range — is accepted: the
wrapping 32-bit narrowing reduces 2^32 to 0 and the import succeeds
with offset 0 instead of failing with "fixed offset out of bounds". -/
theorem c8_counterexample :
    whole_seconds (timedelta_total_ns ⟨49710, 23296, 0⟩) = 4294967296
    ∧ 86399 < whole_seconds (timedelta_total_ns ⟨49710, 23296, 0⟩)
    ∧ utcOffset_extract_bound ⟨"wrapped", some ⟨49710, 23296, 0⟩⟩ = .ok 0 :=
  ⟨by decide, by decide, rfl⟩

/-- C10: with a non-null offset answer, the fixed-offset import narrows
the delta's 64-bit whole-second count to 32 bits by a wrapping
two's-complement cast (reduction modulo 2^32 into `[-2^31, 2^31)`)
before the range check, so the "fixed offset out of bounds" validation
is applied to the wrapped value; the narrowing is exact precisely when
the whole-second count already fits in the signed 32-bit range. -/
theorem c10_wrapping_narrowing (tz : PyTzInfo) (delta : PyDelta)
    (hq : tz.utcoffsetAtNone = some delta) :
    utcOffset_extract_bound tz
      = (match utcOffset_from_whole_seconds
            (wrapI32 (whole_seconds (timedelta_total_ns delta))) with
        | some off => Except.ok off
        | none => Except.error (PyErrKind.valueError "fixed offset out of bounds"))
    ∧ (wrapI32 (whole_seconds (timedelta_total_ns delta))
          = whole_seconds (timedelta_total_ns delta)
        ↔ -2147483648 ≤ whole_seconds (timedelta_total_ns delta)
          ∧ whole_seconds (timedelta_total_ns delta) ≤ 2147483647) := by
  constructor
  · simp only [utcOffset_extract_bound, hq]
  · unfold wrapI32
    constructor
    · intro h
      omega
    · intro h
      omega

/-- Witness for C10: a fixed one-hour timezone imports as +3600 s, and
3600 is unchanged by the wrapping narrowing since it fits in 32 bits. -/
theorem c10_wrapping_narrowing_witness :
    utcOffset_extract_bound ⟨"hour", some ⟨0, 3600, 0⟩⟩ = .ok 3600
    ∧ wrapI32 (whole_seconds (timedelta_total_ns ⟨0, 3600, 0⟩))
        = whole_seconds (timedelta_total_ns ⟨0, 3600, 0⟩) := by
  have h := c10_wrapping_narrowing ⟨"hour", some ⟨0, 3600, 0⟩⟩ ⟨0, 3600, 0⟩ rfl
  constructor
  · rw [h.1]
    rfl
  · exact h.2.mpr (by decide)

end PyO3Time
